import Mathlib

/-
Verification of the pose-estimation network in `model.py` against its
natural-language specification.

The embedding is shallow and structural.  Layer configurations (the objects
built by `conv`, `conv_dw`, `conv_dw_no_bn` and the `__init__` methods) are
translated into explicit Lean structures.  Activation tensors are represented
symbolically: applying a module to a tensor produces an `app` node, addition
an `add` node and `torch.cat` a `cat` node, so the forward data flow of the
source is mirrored term-for-term without committing to numeric semantics.
The parameter state of the network is an abstract type `P`; every `app` node
records the parameter snapshot it reads.

`torch.nn.init.xavier_uniform_` is modelled on the values the source actually
passes to it: a Python object that is either a tensor (with a dimension
count) or an `nn.Module`.  On a module the real function raises
`AttributeError` (modules have no `dim` method), which the model reflects by
returning an error; on a tensor of dimension at least 2 it succeeds.  The
faithful `forward` translations therefore live in `Except PyError`, while the
`forwardFixed` family models the corrected target the specification
prescribes in its design notes: the same data flow with the re-initialization
calls removed.
-/

set_option autoImplicit false

/-- Python exceptions that the modelled torch operations can raise. -/
inductive PyError where
  | attributeError
  | valueError
  | indexError
  | typeError
  deriving DecidableEq, Repr

/-- A torch `nn.Module` as configured by the source: primitive layers with
their constructor arguments, and `nn.Sequential` containers.  Field order of
`conv2d` follows `nn.Conv2d(in_channels, out_channels, kernel_size, stride,
padding, dilation, groups, bias)`. -/
inductive PyModule where
  | conv2d (in_channels out_channels kernel_size stride padding dilation groups : Nat)
      (bias : Bool)
  | batchNorm2d (num_features : Nat)
  | relu
  | elu
  | seq (ms : List PyModule)

/-- Python subscripting `m[i]` on a module: defined on `nn.Sequential`,
`IndexError` out of range, `TypeError` on a non-container module. -/
def PyModule.getItemE (m : PyModule) (i : Nat) : Except PyError PyModule :=
  match m with
  | .seq ms =>
    match ms.get? i with
    | some x => Except.ok x
    | none => Except.error PyError.indexError
  | _ => Except.error PyError.typeError

/-- An argument passed to `torch.nn.init.xavier_uniform_`: either a tensor
(carrying its number of dimensions) or a module object. -/
inductive PyObj where
  | tensorObj (dims : Nat)
  | moduleObj (m : PyModule)

/-- Model of `torch.nn.init.xavier_uniform_`.  The real function first calls
`tensor.dim()`: an `nn.Module` has no such attribute, so passing a module
raises `AttributeError`; a tensor with fewer than 2 dimensions raises
`ValueError`; otherwise the tensor is re-initialized in place and the call
succeeds. -/
def xavier_uniform (o : PyObj) : Except PyError Unit :=
  match o with
  | .moduleObj _ => Except.error PyError.attributeError
  | .tensorObj d => if d < 2 then Except.error PyError.valueError else Except.ok ()

/-- Translation of the `conv` factory (model.py line 7).  Arguments in the
Python parameter order `(in_channels, out_channels, kernel_size=3, padding=1,
bn=True, dilation=1, stride=1, relu=True, bias=True)`; every call site spells
all arguments positionally. -/
def conv (in_channels out_channels kernel_size padding : Nat) (bn : Bool)
    (dilation stride : Nat) ( relu : Bool) (bias : Bool) : PyModule :=
  PyModule.seq
    ([PyModule.conv2d in_channels out_channels kernel_size stride padding dilation 1 bias]
      ++ (if bn then [PyModule.batchNorm2d out_channels] else [])
      ++ (if relu then [PyModule.relu] else []))

/-- Translation of `conv_dw` (model.py line 16), parameter order
`(in_channels, out_channels, kernel_size=3, padding=1, stride=1, dilation=1)`. -/
def conv_dw (in_channels out_channels kernel_size padding stride dilation : Nat) : PyModule :=
  PyModule.seq
    [PyModule.conv2d in_channels in_channels kernel_size stride padding dilation in_channels false,
     PyModule.batchNorm2d in_channels,
     PyModule.relu,
     PyModule.conv2d in_channels out_channels 1 1 0 1 1 false,
     PyModule.batchNorm2d out_channels,
     PyModule.relu]

/-- Translation of `conv_dw_no_bn` (model.py line 28). -/
def conv_dw_no_bn (in_channels out_channels kernel_size padding stride dilation : Nat) :
    PyModule :=
  PyModule.seq
    [PyModule.conv2d in_channels in_channels kernel_size stride padding dilation in_channels false,
     PyModule.elu,
     PyModule.conv2d in_channels out_channels 1 1 0 1 1 false,
     PyModule.elu]

/-- Symbolic activation tensors over an abstract parameter state `P`.
`app m θ x` is the result of running module `m` (with the network parameters
in state `θ`) on `x`; `add` is element-wise addition; `cat dim xs` is
`torch.cat(xs, dim)`. -/
inductive Tensor (P : Type) where
  | var (idx : Nat)
  | app (m : PyModule) (θ : P) (x : Tensor P)
  | add (a b : Tensor P)
  | cat (dim : Nat) (xs : List (Tensor P))

instance {P : Type} : Inhabited (Tensor P) := ⟨Tensor.var 0⟩

/-- Python list indexing with negative indices (`l[-1]` is the last element,
`l[-2]` the one before).  Out-of-range access, which Python punishes with an
`IndexError`, is modelled by the default element; the forward loop only ever
indexes lists of length at least 2, where the default is unreachable. -/
def pyGet {α : Type} [Inhabited α] (l : List α) (i : Int) : α :=
  if 0 ≤ i then l.getD i.toNat default
  else l.getD (l.length - (-i).toNat) default

/-- Alias for the `conv` factory, used inside the `Cpm` namespace where the
structure field named `conv` shadows the factory. -/
def convBlock := conv

/-- Configuration of `Cpm` as built by its `__init__` (model.py line 38). -/
structure Cpm where
  align : PyModule
  trunk : PyModule
  conv : PyModule

/-- `Cpm.__init__(in_channels, out_channels)`. -/
def Cpm.init (in_channels out_channels : Nat) : Cpm :=
  Cpm.mk
    (convBlock in_channels out_channels 1 0 false 1 1 true true)
    (PyModule.seq
      [conv_dw_no_bn out_channels out_channels 3 1 1 1,
       conv_dw_no_bn out_channels out_channels 3 1 1 1,
       conv_dw_no_bn out_channels out_channels 3 1 1 1])
    (convBlock out_channels out_channels 3 1 false 1 1 true true)

/-- Configuration of `InitialStage` (model.py line 59). -/
structure InitialStage where
  trunk : PyModule
  heatmaps : PyModule
  pafs : PyModule

/-- `InitialStage.__init__(num_channels, num_heatmaps, num_pafs)`. -/
def InitialStage.init (num_channels num_heatmaps num_pafs : Nat) : InitialStage :=
  InitialStage.mk
    (PyModule.seq
      [conv num_channels num_channels 3 1 false 1 1 true true,
       conv num_channels num_channels 3 1 false 1 1 true true,
       conv num_channels num_channels 3 1 false 1 1 true true])
    (PyModule.seq
      [conv num_channels 512 1 0 false 1 1 true true,
       conv 512 num_heatmaps 1 0 false 1 1 false true])
    (PyModule.seq
      [conv num_channels 512 1 0 false 1 1 true true,
       conv 512 num_pafs 1 0 false 1 1 false true])

/-- Configuration of `RefinementStageBlock` (model.py line 93). -/
structure RefinementStageBlock where
  initial : PyModule
  trunk : PyModule

/-- `RefinementStageBlock.__init__(in_channels, out_channels)`. -/
def RefinementStageBlock.init (in_channels out_channels : Nat) : RefinementStageBlock :=
  RefinementStageBlock.mk
    (conv in_channels out_channels 1 0 false 1 1 true true)
    (PyModule.seq
      [conv out_channels out_channels 3 1 true 1 1 true true,
       conv out_channels out_channels 3 2 true 2 1 true true])

/-- Configuration of `RefinementStage` (model.py line 112).  Its `trunk` is a
`Sequential` of five `RefinementStageBlock`s, kept here as an ordered list of
block configurations. -/
structure RefinementStage where
  trunk : List RefinementStageBlock
  heatmaps : PyModule
  pafs : PyModule

/-- `RefinementStage.__init__(in_channels, out_channels, num_heatmaps, num_pafs)`. -/
def RefinementStage.init (in_channels out_channels num_heatmaps num_pafs : Nat) :
    RefinementStage :=
  RefinementStage.mk
    [RefinementStageBlock.init in_channels out_channels,
     RefinementStageBlock.init out_channels out_channels,
     RefinementStageBlock.init out_channels out_channels,
     RefinementStageBlock.init out_channels out_channels,
     RefinementStageBlock.init out_channels out_channels]
    (PyModule.seq
      [conv out_channels out_channels 1 0 false 1 1 true true,
       conv out_channels num_heatmaps 1 0 false 1 1 false true])
    (PyModule.seq
      [conv out_channels out_channels 1 0 false 1 1 true true,
       conv out_channels num_pafs 1 0 false 1 1 false true])

/-- Configuration of `PoseEstimationWithMobileNet` (model.py line 138). -/
structure PoseEstimationWithMobileNet where
  model : PyModule
  cpm : Cpm
  initial_stage : InitialStage
  refinement_stages : List RefinementStage

/-- `PoseEstimationWithMobileNet.__init__(num_refinement_stages=1,
num_channels=128, num_heatmaps=19, num_pafs=38)`.  The stage count is an
`Int` so that negative arguments can be expressed; `range(n)` over a
negative `n` is empty, which `Int.toNat` reproduces.  The constructor
performs no validation of its arguments. -/
def PoseEstimationWithMobileNet.init (num_refinement_stages : Int)
    (num_channels num_heatmaps num_pafs : Nat) : PoseEstimationWithMobileNet :=
  PoseEstimationWithMobileNet.mk
    (PyModule.seq
      [conv 3 32 3 1 true 1 2 true false,
       conv_dw 32 64 3 1 1 1,
       conv_dw 64 128 3 1 2 1,
       conv_dw 128 128 3 1 1 1,
       conv_dw 128 256 3 1 2 1,
       conv_dw 256 256 3 1 1 1,
       conv_dw 256 512 3 1 1 1,
       conv_dw 512 512 3 2 1 2,
       conv_dw 512 512 3 1 1 1,
       conv_dw 512 512 3 1 1 1,
       conv_dw 512 512 3 1 1 1,
       conv_dw 512 512 3 1 1 1])
    (Cpm.init 512 num_channels)
    (InitialStage.init num_channels num_heatmaps num_pafs)
    ((List.range num_refinement_stages.toNat).map
      (fun _ => RefinementStage.init (num_channels + num_heatmaps + num_pafs)
        num_channels num_heatmaps num_pafs))

/-- Faithful translation of `Cpm.forward` (model.py lines 48-56): the data
flow is computed first, then `xavier_uniform_` is applied to `self.align`,
the three trunk sub-blocks and `self.conv` — all module objects. -/
def Cpm.forward {P : Type} (self : Cpm) (θ : P) (x : Tensor P) :
    Except PyError (Tensor P) := do
  let x1 := Tensor.app self.align θ x
  let x2 := Tensor.app self.conv θ (Tensor.add x1 (Tensor.app self.trunk θ x1))
  let _ ← xavier_uniform (PyObj.moduleObj self.align)
  let t0 ← self.trunk.getItemE 0
  let _ ← xavier_uniform (PyObj.moduleObj t0)
  let t1 ← self.trunk.getItemE 1
  let _ ← xavier_uniform (PyObj.moduleObj t1)
  let t2 ← self.trunk.getItemE 2
  let _ ← xavier_uniform (PyObj.moduleObj t2)
  let _ ← xavier_uniform (PyObj.moduleObj self.conv)
  pure x2

/-- Faithful translation of `InitialStage.forward` (model.py lines 76-90):
computes the heatmap/PAF pair, then applies `xavier_uniform_` to the leading
`nn.Conv2d` module of each trunk and head sub-block. -/
def InitialStage.forward {P : Type} (self : InitialStage) (θ : P) (x : Tensor P) :
    Except PyError (List (Tensor P)) := do
  let trunk_features := Tensor.app self.trunk θ x
  let heatmaps := Tensor.app self.heatmaps θ trunk_features
  let pafs := Tensor.app self.pafs θ trunk_features
  let t0 ← self.trunk.getItemE 0
  let t00 ← t0.getItemE 0
  let _ ← xavier_uniform (PyObj.moduleObj t00)
  let t1 ← self.trunk.getItemE 1
  let t10 ← t1.getItemE 0
  let _ ← xavier_uniform (PyObj.moduleObj t10)
  let t2 ← self.trunk.getItemE 2
  let t20 ← t2.getItemE 0
  let _ ← xavier_uniform (PyObj.moduleObj t20)
  let h0 ← self.heatmaps.getItemE 0
  let h00 ← h0.getItemE 0
  let _ ← xavier_uniform (PyObj.moduleObj h00)
  let h1 ← self.heatmaps.getItemE 1
  let h10 ← h1.getItemE 0
  let _ ← xavier_uniform (PyObj.moduleObj h10)
  let p0 ← self.pafs.getItemE 0
  let p00 ← p0.getItemE 0
  let _ ← xavier_uniform (PyObj.moduleObj p00)
  let p1 ← self.pafs.getItemE 1
  let p10 ← p1.getItemE 0
  let _ ← xavier_uniform (PyObj.moduleObj p10)
  pure [heatmaps, pafs]

/-- Faithful translation of `RefinementStageBlock.forward` (model.py lines
102-109): residual data flow, then `xavier_uniform_` on `self.initial` and
the first `nn.Conv2d` of each trunk sub-block. -/
def RefinementStageBlock.forward {P : Type} (self : RefinementStageBlock) (θ : P)
    (x : Tensor P) : Except PyError (Tensor P) := do
  let initial_features := Tensor.app self.initial θ x
  let trunk_features := Tensor.app self.trunk θ initial_features
  let _ ← xavier_uniform (PyObj.moduleObj self.initial)
  let t0 ← self.trunk.getItemE 0
  let t00 ← t0.getItemE 0
  let _ ← xavier_uniform (PyObj.moduleObj t00)
  let t1 ← self.trunk.getItemE 1
  let t10 ← t1.getItemE 0
  let _ ← xavier_uniform (PyObj.moduleObj t10)
  pure (Tensor.add initial_features trunk_features)

/-- Running the `Sequential` trunk of a `RefinementStage`: each block's
`forward` in order. -/
def RefinementStage.runTrunkE {P : Type} (θ : P) :
    List RefinementStageBlock → Tensor P → Except PyError (Tensor P)
  | [], x => pure x
  | b :: bs, x => do
    let y ← b.forward θ x
    RefinementStage.runTrunkE θ bs y

/-- Faithful translation of `RefinementStage.forward` (model.py lines
131-135): trunk then the two heads — this method contains no
`xavier_uniform_` call of its own. -/
def RefinementStage.forward {P : Type} (self : RefinementStage) (θ : P) (x : Tensor P) :
    Except PyError (List (Tensor P)) := do
  let trunk_features ← RefinementStage.runTrunkE θ self.trunk x
  pure [Tensor.app self.heatmaps θ trunk_features, Tensor.app self.pafs θ trunk_features]

/-- The subscript pairs `(i, j)` named by the 21 `xavier_uniform_` calls at
the end of `PoseEstimationWithMobileNet.forward` (model.py lines 173-193):
each call targets `self.model[i][j]`. -/
def poseBackboneInitTargets : List (Nat × Nat) :=
  [(0, 0),
   (1, 0), (1, 3),
   (2, 0), (2, 3),
   (3, 0), (3, 3),
   (4, 0), (4, 3),
   (5, 0), (5, 3),
   (6, 0), (6, 3),
   (7, 0), (7, 3),
   (8, 0), (8, 3),
   (9, 0), (9, 3),
   (10, 0), (10, 3)]

/-- The backbone re-initialization block of `PoseEstimationWithMobileNet.forward`:
for each targeted pair, subscript the model twice and call `xavier_uniform_`
on the resulting module. -/
def backboneReinitE (model : PyModule) : List (Nat × Nat) → Except PyError Unit
  | [] => pure ()
  | (i, j) :: rest => do
    let mi ← model.getItemE i
    let mij ← mi.getItemE j
    let _ ← xavier_uniform (PyObj.moduleObj mij)
    backboneReinitE model rest

/-- The refinement loop of `PoseEstimationWithMobileNet.forward` (model.py
lines 168-170): each stage consumes `torch.cat([features, stages_output[-2],
stages_output[-1]], dim=1)` and its 2-element result extends the list. -/
def refineLoopE {P : Type} (θ : P) (features : Tensor P) :
    List RefinementStage → List (Tensor P) → Except PyError (List (Tensor P))
  | [], stages_output => pure stages_output
  | s :: rest, stages_output => do
    let pair ← s.forward θ
      (Tensor.cat 1 [features, pyGet stages_output (-2), pyGet stages_output (-1)])
    refineLoopE θ features rest (stages_output ++ pair)

/-- Faithful translation of `PoseEstimationWithMobileNet.forward` (model.py
lines 163-195): backbone, CPM, initial stage, refinement loop, then the
backbone re-initialization block, then return the output list. -/
def PoseEstimationWithMobileNet.forward {P : Type} (self : PoseEstimationWithMobileNet)
    (θ : P) (x : Tensor P) : Except PyError (List (Tensor P)) := do
  let backbone_features := Tensor.app self.model θ x
  let backbone_features ← self.cpm.forward θ backbone_features
  let stages_output ← self.initial_stage.forward θ backbone_features
  let stages_output ← refineLoopE θ backbone_features self.refinement_stages stages_output
  let _ ← backboneReinitE self.model poseBackboneInitTargets
  pure stages_output

/-- Modelled from the spec: section 9 prescribes removing the per-call
re-initialization; `Cpm.forwardFixed` is the data flow of `Cpm.forward` with
the `xavier_uniform_` calls deleted. -/
def Cpm.forwardFixed {P : Type} (self : Cpm) (θ : P) (x : Tensor P) : Tensor P :=
  let x1 := Tensor.app self.align θ x
  Tensor.app self.conv θ (Tensor.add x1 (Tensor.app self.trunk θ x1))

/-- The heatmap head output of the initial stage on input `x`. -/
def InitialStage.heatOut {P : Type} (self : InitialStage) (θ : P) (x : Tensor P) : Tensor P :=
  Tensor.app self.heatmaps θ (Tensor.app self.trunk θ x)

/-- The PAF head output of the initial stage on input `x`. -/
def InitialStage.pafOut {P : Type} (self : InitialStage) (θ : P) (x : Tensor P) : Tensor P :=
  Tensor.app self.pafs θ (Tensor.app self.trunk θ x)

/-- Modelled from the spec: `InitialStage.forward` with the re-initialization
calls deleted — it returns the pair as the ordered list `[heatmaps, pafs]`. -/
def InitialStage.forwardFixed {P : Type} (self : InitialStage) (θ : P) (x : Tensor P) :
    List (Tensor P) :=
  [self.heatOut θ x, self.pafOut θ x]

/-- Modelled from the spec: `RefinementStageBlock.forward` with the
re-initialization calls deleted — the residual `initial + trunk(initial)`. -/
def RefinementStageBlock.forwardFixed {P : Type} (self : RefinementStageBlock) (θ : P)
    (x : Tensor P) : Tensor P :=
  let initial_features := Tensor.app self.initial θ x
  Tensor.add initial_features (Tensor.app self.trunk θ initial_features)

/-- Running a refinement-stage trunk with the corrected block forward. -/
def RefinementStage.runTrunk {P : Type} (θ : P) :
    List RefinementStageBlock → Tensor P → Tensor P
  | [], x => x
  | b :: bs, x => RefinementStage.runTrunk θ bs (b.forwardFixed θ x)

/-- The heatmap head output of a refinement stage on input `x` (corrected
data flow). -/
def RefinementStage.heatOut {P : Type} (self : RefinementStage) (θ : P) (x : Tensor P) :
    Tensor P :=
  Tensor.app self.heatmaps θ (RefinementStage.runTrunk θ self.trunk x)

/-- The PAF head output of a refinement stage on input `x` (corrected data
flow). -/
def RefinementStage.pafOut {P : Type} (self : RefinementStage) (θ : P) (x : Tensor P) :
    Tensor P :=
  Tensor.app self.pafs θ (RefinementStage.runTrunk θ self.trunk x)

/-- `RefinementStage.forward` with the corrected block forward: the ordered
pair `[heatmaps, pafs]` computed from the shared trunk features. -/
def RefinementStage.forwardFixed {P : Type} (self : RefinementStage) (θ : P) (x : Tensor P) :
    List (Tensor P) :=
  [self.heatOut θ x, self.pafOut θ x]

/-- The refinement loop with the corrected stage forward; the feedback still
reads `stages_output[-2]` and `stages_output[-1]`. -/
def refineLoopFixed {P : Type} (θ : P) (features : Tensor P) :
    List RefinementStage → List (Tensor P) → List (Tensor P)
  | [], stages_output => stages_output
  | s :: rest, stages_output =>
    refineLoopFixed θ features rest
      (stages_output ++ s.forwardFixed θ
        (Tensor.cat 1 [features, pyGet stages_output (-2), pyGet stages_output (-1)]))

/-- Modelled from the spec: `PoseEstimationWithMobileNet.forward` with every
re-initialization call deleted — the corrected target of spec section 9. -/
def PoseEstimationWithMobileNet.forwardFixed {P : Type}
    (self : PoseEstimationWithMobileNet) (θ : P) (x : Tensor P) : List (Tensor P) :=
  let features := self.cpm.forwardFixed θ (Tensor.app self.model θ x)
  refineLoopFixed θ features self.refinement_stages (self.initial_stage.forwardFixed θ features)

/-- Modelled from the spec: the most-refined (heatmap, paf) pair of the
section 4.7 guarantee — starting from the initial stage's pair, each
refinement stage in order reads the previously emitted pair, consumes the
concatenation of the CPM features with it, and emits its own pair in
(heatmap, paf) order. -/
def mostRefinedPair {P : Type} (θ : P) (features : Tensor P) :
    List RefinementStage → Tensor P × Tensor P → Tensor P × Tensor P
  | [], pair => pair
  | s :: rest, (h, p) =>
    mostRefinedPair θ features rest
      (s.heatOut θ (Tensor.cat 1 [features, h, p]),
       s.pafOut θ (Tensor.cat 1 [features, h, p]))

/-- The configured input channel count of a layer chain built by `conv`: the
`in_channels` argument of its leading `nn.Conv2d`. -/
def PyModule.firstConvInChannels : PyModule → Option Nat
  | PyModule.seq (PyModule.conv2d ic _ _ _ _ _ _ _ :: _) => some ic
  | _ => none

/-- The input channel count a refinement stage was configured with at
construction: the `in_channels` of the 1x1 `initial` convolution of the first
block of its trunk. -/
def RefinementStage.inputChannels (self : RefinementStage) : Option Nat :=
  match self.trunk with
  | [] => none
  | b :: _ => b.initial.firstConvInChannels

/-- A parameter path that a `xavier_uniform_` call in some `forward` method of
the network could name, relative to a full `PoseEstimationWithMobileNet`:
backbone sub-modules, CPM parts, initial-stage convolutions, and the
refinement-stage parts (block convolutions, block batchnorm layers, head
convolutions). -/
inductive InitTarget where
  | backbone (i j : Nat)
  | cpmAlign
  | cpmTrunk (i : Nat)
  | cpmConv
  | initTrunkConv (i : Nat)
  | initHeatmapsConv (i : Nat)
  | initPafsConv (i : Nat)
  | refBlockInitial (stage block : Nat)
  | refBlockTrunkConv (stage block i : Nat)
  | refBlockTrunkBn (stage block i : Nat)
  | refHeatmaps (stage i : Nat)
  | refPafs (stage i : Nat)
  deriving DecidableEq

/-- The targets named by the five `xavier_uniform_` calls in `Cpm.forward`. -/
def cpmForwardInitTargets : List InitTarget :=
  [InitTarget.cpmAlign, InitTarget.cpmTrunk 0, InitTarget.cpmTrunk 1,
   InitTarget.cpmTrunk 2, InitTarget.cpmConv]

/-- The targets named by the seven `xavier_uniform_` calls in
`InitialStage.forward`. -/
def initialStageForwardInitTargets : List InitTarget :=
  [InitTarget.initTrunkConv 0, InitTarget.initTrunkConv 1, InitTarget.initTrunkConv 2,
   InitTarget.initHeatmapsConv 0, InitTarget.initHeatmapsConv 1,
   InitTarget.initPafsConv 0, InitTarget.initPafsConv 1]

/-- The targets named by the three `xavier_uniform_` calls in
`RefinementStageBlock.forward`, for block `block` of stage `stage`. -/
def refinementBlockInitTargets (stage block : Nat) : List InitTarget :=
  [InitTarget.refBlockInitial stage block,
   InitTarget.refBlockTrunkConv stage block 0,
   InitTarget.refBlockTrunkConv stage block 1]

/-- The targets named while stage `stage` runs: its trunk executes five
blocks, each naming its own targets; `RefinementStage.forward` itself names
none. -/
def refinementStageInitTargets (stage : Nat) : List InitTarget :=
  (List.range 5).flatMap (refinementBlockInitTargets stage)

/-- Every target named by a `xavier_uniform_` call during one
`PoseEstimationWithMobileNet.forward` on a network with `n` refinement
stages, in execution order: the CPM's, the initial stage's, the refinement
blocks', then the backbone block at the end of `forward`. -/
def poseForwardInitTargets (n : Nat) : List InitTarget :=
  cpmForwardInitTargets ++ initialStageForwardInitTargets
    ++ (List.range n).flatMap refinementStageInitTargets
    ++ poseBackboneInitTargets.map (fun ij => InitTarget.backbone ij.1 ij.2)

/-- Python indexing `l[-1]` on a list extended by two elements yields the
second appended element. -/
theorem pyGet_append_last {α : Type} [Inhabited α] (l : List α) (a b : α) :
    pyGet (l ++ [a, b]) (-1) = b := by
  rw [pyGet, if_neg (by decide)]
  have h1 : (l ++ [a, b]).length - ((-(-1 : Int)).toNat) = l.length + 1 := by simp
  rw [h1, List.getD_append_right l [a, b] default (l.length + 1) (by omega)]
  have h2 : l.length + 1 - l.length = 1 := by omega
  rw [h2]
  rfl

/-- Python indexing `l[-2]` on a list extended by two elements yields the
first appended element. -/
theorem pyGet_append_penult {α : Type} [Inhabited α] (l : List α) (a b : α) :
    pyGet (l ++ [a, b]) (-2) = a := by
  rw [pyGet, if_neg (by decide)]
  have h1 : (l ++ [a, b]).length - ((-(-2 : Int)).toNat) = l.length := by simp
  rw [h1, List.getD_append_right l [a, b] default l.length (by omega)]
  have h2 : l.length - l.length = 0 := by omega
  rw [h2]
  rfl

/-- Each refinement stage extends the output list by exactly two entries. -/
theorem refineLoopFixed_length {P : Type} (θ : P) (f : Tensor P) :
    ∀ (stages : List RefinementStage) (out : List (Tensor P)),
      (refineLoopFixed θ f stages out).length = out.length + 2 * stages.length := by
  intro stages
  induction stages with
  | nil => intro out; simp [refineLoopFixed]
  | cons s rest ih =>
    intro out
    rw [refineLoopFixed, ih]
    simp [RefinementStage.forwardFixed]
    ring

/-- The last two entries of the refinement loop's result are exactly the
(heatmap, paf) pair of the feedback recursion `mostRefinedPair`, whatever
list the loop starts from, as long as its last two entries seed the
recursion. -/
theorem refineLoopFixed_last {P : Type} (θ : P) (f : Tensor P)
    (stages : List RefinementStage) :
    ∀ (acc : List (Tensor P)) (h p : Tensor P),
      pyGet (refineLoopFixed θ f stages (acc ++ [h, p])) (-1)
          = (mostRefinedPair θ f stages (h, p)).2
      ∧ pyGet (refineLoopFixed θ f stages (acc ++ [h, p])) (-2)
          = (mostRefinedPair θ f stages (h, p)).1 := by
  induction stages with
  | nil =>
    intro acc h p
    exact ⟨pyGet_append_last acc h p, pyGet_append_penult acc h p⟩
  | cons s rest ih =>
    intro acc h p
    simp only [refineLoopFixed, mostRefinedPair]
    rw [pyGet_append_penult, pyGet_append_last]
    exact ih (acc ++ [h, p]) (s.heatOut θ (Tensor.cat 1 [f, h, p]))
      (s.pafOut θ (Tensor.cat 1 [f, h, p]))

/-- Claim C1.  The claim says `forward` returns a list of length
`2 + 2 * num_refinement_stages`.  On the source as written, `forward` raises
before returning anything: the first conjunct evaluates the faithful
translation on the default configuration and a concrete input and obtains the
`AttributeError` caused by applying `xavier_uniform_` to a module object.
The remaining conjuncts establish the intended property on the corrected data
flow (the re-initialization calls removed, as the spec's design notes
prescribe): the output list has length `2 + 2 * n`, the initial stage
contributing 2 entries and each refinement stage 2 more, and a network
constructed with `n` refinement stages has exactly `n` stages. -/
theorem pose_forward_raises_and_fixed_output_length :
    (PoseEstimationWithMobileNet.init 1 128 19 38).forward () (Tensor.var 0)
        = Except.error PyError.attributeError
    ∧ (∀ (net : PoseEstimationWithMobileNet) (P : Type) (θ : P) (x : Tensor P),
        (net.forwardFixed θ x).length = 2 + 2 * net.refinement_stages.length)
    ∧ (∀ (n c h p : Nat),
        (PoseEstimationWithMobileNet.init (Int.ofNat n) c h p).refinement_stages.length = n) := by
  refine ⟨rfl, ?_, ?_⟩
  · intro net P θ x
    rw [PoseEstimationWithMobileNet.forwardFixed, refineLoopFixed_length]
    simp [InitialStage.forwardFixed]
  · intro n c h p
    simp [PoseEstimationWithMobileNet.init]

/-- Claim C2.  The claim says the list returned by `forward` ends with the
most-refined PAF map, preceded by the most-refined heatmap, produced by the
feedback recursion that feeds each stage the concatenation of the CPM
features with the two most recently appended outputs.  On the source as
written `forward` raises before returning (first conjunct, evaluated on a
concrete configuration and input).  On the corrected data flow the property
holds: the last and second-to-last entries of the output are exactly the
second and first components of `mostRefinedPair`, the spec's feedback
recursion in (heatmap, paf) order. -/
theorem pose_forward_raises_and_fixed_last_pair :
    (PoseEstimationWithMobileNet.init 2 128 19 38).forward () (Tensor.var 1)
        = Except.error PyError.attributeError
    ∧ (∀ (net : PoseEstimationWithMobileNet) (P : Type) (θ : P) (x : Tensor P),
        pyGet (net.forwardFixed θ x) (-1)
            = (mostRefinedPair θ (net.cpm.forwardFixed θ (Tensor.app net.model θ x))
                net.refinement_stages
                (net.initial_stage.heatOut θ (net.cpm.forwardFixed θ (Tensor.app net.model θ x)),
                 net.initial_stage.pafOut θ
                   (net.cpm.forwardFixed θ (Tensor.app net.model θ x)))).2
        ∧ pyGet (net.forwardFixed θ x) (-2)
            = (mostRefinedPair θ (net.cpm.forwardFixed θ (Tensor.app net.model θ x))
                net.refinement_stages
                (net.initial_stage.heatOut θ (net.cpm.forwardFixed θ (Tensor.app net.model θ x)),
                 net.initial_stage.pafOut θ
                   (net.cpm.forwardFixed θ (Tensor.app net.model θ x)))).1) := by
  refine ⟨rfl, ?_⟩
  intro net P θ x
  exact refineLoopFixed_last θ (net.cpm.forwardFixed θ (Tensor.app net.model θ x))
    net.refinement_stages []
    (net.initial_stage.heatOut θ (net.cpm.forwardFixed θ (Tensor.app net.model θ x)))
    (net.initial_stage.pafOut θ (net.cpm.forwardFixed θ (Tensor.app net.model θ x)))

/-- Claim C3.  For every parameter state and every input, the forward calls
of `PoseEstimationWithMobileNet`, `Cpm`, `InitialStage` and
`RefinementStageBlock` all raise `AttributeError` and never return normally,
for every constructor argument choice, because every `xavier_uniform_` call
passes a module object; the final conjunct shows the contrast the claim
appeals to: on a weight tensor (4 dimensions) the same call succeeds. -/
theorem forward_calls_always_raise :
    (∀ (P : Type) (θ : P) (x : Tensor P),
      (∀ ic oc : Nat, (Cpm.init ic oc).forward θ x = Except.error PyError.attributeError)
      ∧ (∀ c h p : Nat,
          (InitialStage.init c h p).forward θ x = Except.error PyError.attributeError)
      ∧ (∀ ic oc : Nat,
          (RefinementStageBlock.init ic oc).forward θ x = Except.error PyError.attributeError)
      ∧ (∀ (n : Int) (c h p : Nat),
          (PoseEstimationWithMobileNet.init n c h p).forward θ x
            = Except.error PyError.attributeError))
    ∧ xavier_uniform (PyObj.tensorObj 4) = Except.ok () :=
  ⟨fun _ _ _ =>
    ⟨fun _ _ => rfl, fun _ _ _ => rfl, fun _ _ => rfl, fun _ _ _ _ => rfl⟩, rfl⟩

/-- Claim C4.  The claim states the two-run determinism of `forward` under
identical input and unchanged parameters.  The source's `forward` produces no
output at all (first conjunct: it raises on a concrete configuration and
input), so the property as stated fails on the code; on the corrected data
flow, which the spec names as the target behavior, two runs with equal
parameter states and equal inputs produce equal outputs (second conjunct). -/
theorem pose_forward_raises_and_fixed_deterministic :
    (PoseEstimationWithMobileNet.init 1 128 19 38).forward () (Tensor.var 2)
        = Except.error PyError.attributeError
    ∧ (∀ (P : Type) (net : PoseEstimationWithMobileNet) (θ₁ θ₂ : P) (x₁ x₂ : Tensor P),
        θ₁ = θ₂ → x₁ = x₂ → net.forwardFixed θ₁ x₁ = net.forwardFixed θ₂ x₂) := by
  refine ⟨rfl, ?_⟩
  intro P net θ₁ θ₂ x₁ x₂ hθ hx
  rw [hθ, hx]

/-- Witness for the C4 theorem at a concrete configuration, parameter state
and input. -/
theorem pose_fixed_deterministic_witness :
    (PoseEstimationWithMobileNet.init 1 128 19 38).forward () (Tensor.var 2)
        = Except.error PyError.attributeError
    ∧ (PoseEstimationWithMobileNet.init 1 128 19 38).forwardFixed () (Tensor.var 0)
        = (PoseEstimationWithMobileNet.init 1 128 19 38).forwardFixed () (Tensor.var 0) :=
  ⟨pose_forward_raises_and_fixed_deterministic.1,
   pose_forward_raises_and_fixed_deterministic.2 Unit
     (PoseEstimationWithMobileNet.init 1 128 19 38) () () (Tensor.var 0) (Tensor.var 0) rfl rfl⟩

/-- Claim C5.  Every refinement stage of a network constructed with
parameters (num_channels, num_heatmaps, num_pafs) is configured at
construction time with input channel count
`num_channels + num_heatmaps + num_pafs`, independent of the stage index. -/
theorem refinement_stage_input_channels :
    ∀ (n : Int) (c h p : Nat) (i : Nat)
      (hi : i < (PoseEstimationWithMobileNet.init n c h p).refinement_stages.length),
      ((PoseEstimationWithMobileNet.init n c h p).refinement_stages.get ⟨i, hi⟩).inputChannels
        = some (c + h + p) := by
  intro n c h p i hi
  have hget : (PoseEstimationWithMobileNet.init n c h p).refinement_stages.get ⟨i, hi⟩
      = RefinementStage.init (c + h + p) c h p := by
    simp [PoseEstimationWithMobileNet.init, List.get_eq_getElem, List.getElem_map]
  rw [hget]
  rfl

/-- Witness for the C5 theorem: the second stage of a default-width network
with two refinement stages has input channel count 128 + 19 + 38 = 185. -/
theorem refinement_stage_input_channels_witness :
    ((PoseEstimationWithMobileNet.init 2 128 19 38).refinement_stages.get
        ⟨1, by decide⟩).inputChannels = some 185 :=
  refinement_stage_input_channels 2 128 19 38 1 (by decide)

/-- Claim C6.  The claim says `RefinementStageBlock.forward` returns exactly
`initial(x) + trunk(initial(x))`.  On the source as written the method raises
before returning (first conjunct, on a concrete block and input).  On the
corrected data flow the residual equality holds exactly, and the block is
configured as the spec describes: `initial` is a 1x1 projection without
normalization with activation on, and `trunk` is a standard conv block
followed by a conv block with dilation 2 and padding 2, both with
normalization and activation. -/
theorem refinement_block_raises_and_residual_structure :
    (RefinementStageBlock.init 185 128).forward () (Tensor.var 0)
        = Except.error PyError.attributeError
    ∧ (∀ (ic oc : Nat) (P : Type) (θ : P) (x : Tensor P),
        (RefinementStageBlock.init ic oc).forwardFixed θ x
          = Tensor.add (Tensor.app (RefinementStageBlock.init ic oc).initial θ x)
              (Tensor.app (RefinementStageBlock.init ic oc).trunk θ
                (Tensor.app (RefinementStageBlock.init ic oc).initial θ x))
        ∧ (RefinementStageBlock.init ic oc).initial = conv ic oc 1 0 false 1 1 true true
        ∧ (RefinementStageBlock.init ic oc).trunk
            = PyModule.seq
                [conv oc oc 3 1 true 1 1 true true, conv oc oc 3 2 true 2 1 true true]) :=
  ⟨rfl, fun _ _ _ _ _ => ⟨rfl, rfl, rfl⟩⟩

/-- Counterexample to claim C7: the last depthwise-separable backbone block,
`self.model[11]`, is absent from the re-initialization target list of
`PoseEstimationWithMobileNet.forward` (neither its first sub-layer `[11][0]`
nor its pointwise sub-layer `[11][3]` is targeted), even though `model[11]`
exists and is a depthwise-separable block — so not all 11 depthwise blocks
are touched. -/
theorem backbone_block_eleven_skipped :
    ((11, 0) : Nat × Nat) ∉ poseBackboneInitTargets
    ∧ ((11, 3) : Nat × Nat) ∉ poseBackboneInitTargets
    ∧ (PoseEstimationWithMobileNet.init 1 128 19 38).model.getItemE 11
        = Except.ok (conv_dw 512 512 3 1 1 1) :=
  ⟨by decide, by decide, rfl⟩

/-- Claim C7 (amended).  The re-initialization list of
`PoseEstimationWithMobileNet.forward` covers the very first standalone
convolution `model[0][0]` and the first and pointwise sub-layers of the
depthwise-separable blocks 1 through 10 only; every listed pair targets a
block index at most 10 and sub-layer 0 or 3, and block 11 is never
targeted. -/
theorem backbone_reinit_target_coverage :
    ((0, 0) : Nat × Nat) ∈ poseBackboneInitTargets
    ∧ (∀ i : Nat, 1 ≤ i → i ≤ 10 →
        ((i, 0) : Nat × Nat) ∈ poseBackboneInitTargets
        ∧ ((i, 3) : Nat × Nat) ∈ poseBackboneInitTargets)
    ∧ (∀ ij : Nat × Nat, ij ∈ poseBackboneInitTargets → ij.1 ≤ 10 ∧ (ij.2 = 0 ∨ ij.2 = 3))
    ∧ (∀ j : Nat, ((11, j) : Nat × Nat) ∉ poseBackboneInitTargets) := by
  have h3 : ∀ ij : Nat × Nat, ij ∈ poseBackboneInitTargets →
      ij.1 ≤ 10 ∧ (ij.2 = 0 ∨ ij.2 = 3) := by decide
  refine ⟨by decide, ?_, h3, ?_⟩
  · intro i h1 h2
    interval_cases i <;> exact ⟨by decide, by decide⟩
  · intro j hj
    have := (h3 (11, j) hj).1
    omega

/-- Witness for the C7 amended theorem at block index 5. -/
theorem backbone_reinit_target_coverage_witness :
    ((5, 0) : Nat × Nat) ∈ poseBackboneInitTargets
    ∧ ((5, 3) : Nat × Nat) ∈ poseBackboneInitTargets :=
  backbone_reinit_target_coverage.2.1 5 (by decide) (by decide)

/-- Counterexample to claim C8: constructing with
`num_refinement_stages = -1` does not raise any error — the constructor is
total and yields exactly the same network as `num_refinement_stages = 0`,
with an empty refinement-stage sequence, where the claim demands a fatal
`InvalidConfiguration`. -/
theorem invalid_config_construction_succeeds :
    PoseEstimationWithMobileNet.init (-1) 128 19 38
        = PoseEstimationWithMobileNet.init 0 128 19 38
    ∧ (PoseEstimationWithMobileNet.init (-1) 128 19 38).refinement_stages = [] :=
  ⟨rfl, rfl⟩

/-- Claim C8 (amended).  Construction performs no validation: for any
configuration the claim calls invalid (`num_refinement_stages < 0` or zero
heatmap/PAF counts) the constructor still builds the network normally — the
refinement-stage list is `max(n, 0)` copies of the usual stage and the other
sub-modules are built exactly as always, with no error of any kind. -/
theorem construction_performs_no_validation :
    ∀ (c h p : Nat) (n : Int), n < 0 ∨ h = 0 ∨ p = 0 →
      (PoseEstimationWithMobileNet.init n c h p).refinement_stages
          = List.replicate n.toNat (RefinementStage.init (c + h + p) c h p)
      ∧ (PoseEstimationWithMobileNet.init n c h p).initial_stage = InitialStage.init c h p
      ∧ (PoseEstimationWithMobileNet.init n c h p).cpm = Cpm.init 512 c := by
  intro c h p n _
  refine ⟨?_, rfl, rfl⟩
  simp [PoseEstimationWithMobileNet.init]

/-- Witness for the C8 amended theorem at `num_refinement_stages = -1`. -/
theorem construction_performs_no_validation_witness :
    (PoseEstimationWithMobileNet.init (-1) 128 19 38).refinement_stages
        = List.replicate ((-1 : Int)).toNat (RefinementStage.init (128 + 19 + 38) 128 19 38)
    ∧ (PoseEstimationWithMobileNet.init (-1) 128 19 38).initial_stage
        = InitialStage.init 128 19 38
    ∧ (PoseEstimationWithMobileNet.init (-1) 128 19 38).cpm = Cpm.init 512 128 :=
  construction_performs_no_validation 128 19 38 (-1) (Or.inl (by decide))

/-- Claim C9.  No re-initialization call of any forward method ever names the
last backbone block `model[11]`, any refinement-stage batchnorm layer, or any
refinement-stage heatmap/PAF head: every target named during a full forward
(for any stage count) is distinct from those paths; and since every
`xavier_uniform_` call receives a module object it raises before modifying
anything, so no parameter — those included — is ever re-initialized. -/
theorem reinit_targets_avoid_model11_and_refinement :
    (∀ (n : Nat) (t : InitTarget), t ∈ poseForwardInitTargets n →
      (∀ j, t ≠ InitTarget.backbone 11 j)
      ∧ (∀ s b i, t ≠ InitTarget.refBlockTrunkBn s b i)
      ∧ (∀ s i, t ≠ InitTarget.refHeatmaps s i)
      ∧ (∀ s i, t ≠ InitTarget.refPafs s i))
    ∧ (∀ m : PyModule,
        xavier_uniform (PyObj.moduleObj m) = Except.error PyError.attributeError) := by
  constructor
  · intro n t ht
    simp only [poseForwardInitTargets, List.mem_append, List.mem_map,
      List.mem_flatMap] at ht
    rcases ht with ((h | h) | ⟨s, hs, h⟩) | ⟨ij, hij, rfl⟩
    · fin_cases h <;> simp
    · fin_cases h <;> simp
    · simp only [refinementStageInitTargets, List.mem_flatMap] at h
      obtain ⟨b, hb, h⟩ := h
      simp only [refinementBlockInitTargets, List.mem_cons, List.mem_singleton] at h
      rcases h with rfl | rfl | rfl | h
      · simp
      · simp
      · simp
      · simp at h
    · have h10 : ij.1 ≤ 10 := by
        have hall : ∀ x ∈ poseBackboneInitTargets, x.1 ≤ 10 := by decide
        exact hall ij hij
      refine ⟨?_, by simp, by simp, by simp⟩
      intro j hEq
      rw [InitTarget.backbone.injEq] at hEq
      omega
  · intro m
    rfl

/-- Witness for the C9 theorem: the CPM alignment target of a one-stage
network is distinct from `model[11]`, and a concrete module argument makes
`xavier_uniform_` raise. -/
theorem reinit_targets_avoid_witness :
    (InitTarget.cpmAlign ≠ InitTarget.backbone 11 0)
    ∧ xavier_uniform (PyObj.moduleObj PyModule.relu) = Except.error PyError.attributeError :=
  ⟨(reinit_targets_avoid_model11_and_refinement.1 1 InitTarget.cpmAlign (by decide)).1 0,
   reinit_targets_avoid_model11_and_refinement.2 PyModule.relu⟩

/-- Claim C10.  Constructing with any negative `num_refinement_stages`
succeeds and yields exactly the network of `num_refinement_stages = 0`: the
refinement-stage sequence is empty and every other sub-module identical. -/
theorem negative_stage_count_empty_sequence :
    ∀ (c h p : Nat) (n : Int), n < 0 →
      PoseEstimationWithMobileNet.init n c h p = PoseEstimationWithMobileNet.init 0 c h p
      ∧ (PoseEstimationWithMobileNet.init n c h p).refinement_stages = [] := by
  intro c h p n hn
  have h0 : n.toNat = 0 := Int.toNat_of_nonpos (le_of_lt hn)
  constructor
  · simp [PoseEstimationWithMobileNet.init, h0]
  · simp [PoseEstimationWithMobileNet.init, h0]

/-- Witness for the C10 theorem at `num_refinement_stages = -2`. -/
theorem negative_stage_count_empty_sequence_witness :
    PoseEstimationWithMobileNet.init (-2) 64 10 20 = PoseEstimationWithMobileNet.init 0 64 10 20
    ∧ (PoseEstimationWithMobileNet.init (-2) 64 10 20).refinement_stages = [] :=
  negative_stage_count_empty_sequence 64 10 20 (-2) (by decide)
